/-
Verification of the financialplanner projection engine.

The repository's three Streamlit pages each contain a year-by-year
projection loop over pure numeric state.  This file embeds those loops
shallowly in Lean:

* `src/pages/2_Family_Legacy.py` lines 125-159 — the drawdown
  ("Family Legacy") calculation engine: `legacyStep`, `legacyStates`,
  `legacyRow`, `legacyLedger`.
* `src/pages/3_Wealth_Accelerator.py` lines 64-79 — the accumulation
  ("Wealth Accelerator") loop: `waStep`, `waStates`, `waRow`.
* The power-law price helpers of both pages:
  `get_power_law_price`, `sd_to_multiplier` (page 2, lines 14-20),
  the explicit-SD projection (page 2, lines 141-143, `plSDPrice`) and
  the anchored projection (page 3, lines 60-61 and 74,
  `anchor_ratio`, `anchoredPriceAt`).

Python floats are modelled as elements of a linear ordered field
(instantiated at ℚ for executable witnesses and at ℝ where the
power-law `**` needs real exponentiation); arithmetic is exact.
The status strings "Sustainable" / "Failed" of the source are
modelled by the inductive type `Status`.
-/
import Mathlib

namespace FinancialPlanner

/-- The drawdown solvency status; the source stores the strings
`"Sustainable"` and `"Failed"`. -/
inductive Status where
  | Sustainable : Status
  | Failed : Status
deriving DecidableEq, Repr

/-- The growth engine chosen by the `model_mode` radio button.  In
manual-cycle mode the price advances by the per-year rate looked up in
the editable table (a list of `(Year, Growth %)` pairs); in power-law
mode the source overwrites the price with a value computed directly
from the year index, which we model as an arbitrary year-indexed
price function (instantiated with `plSDPrice` / `anchoredPriceAt`
below for the power-law claims). -/
inductive GrowthEngine (α : Type) where
  | manual (table : List (ℕ × α)) : GrowthEngine α
  | powerLawSD (priceAt : ℕ → α) : GrowthEngine α

variable {α : Type} [LinearOrderedField α]

/-- Source: `try: g = edited_growth.loc[edited_growth['Year'] == y, 'Growth %'].values[0] / 100`
`except: g = 0.05` (page 2 lines 137-138, page 1 lines 134-135, page 3
lines 70-71): the first table entry for the exact year, divided by 100,
else the fallback rate 5%. -/
def rateLookup (table : List (ℕ × α)) (y : ℕ) : α :=
  match table.find? (fun e => e.1 == y) with
  | some e => e.2 / 100
  | none => 5 / 100

/-- Source: `events_lookup = edited_events.groupby('Year')['Amount'].sum().to_dict()`
and `events_lookup.get(y, 0)` (page 2 lines 126-127 and 148): the sum of
all event amounts registered for year `y`, 0 if none. -/
def eventsAmount (events : List (ℕ × α)) (y : ℕ) : α :=
  ((events.filter (fun e => e.1 == y)).map (fun e => e.2)).sum

/-- Page 2 lines 151-152:
`gross_sell = total_net_needed / (1 - tax_rate) if tax_rate < 1.0 else total_net_needed`,
`tax_paid = gross_sell - total_net_needed`.  Returns `(gross, tax)`. -/
def gross_up (net taxRate : α) : α × α :=
  let gross := if taxRate < 1 then net / (1 - taxRate) else net
  (gross, gross - net)

/-- The per-run configuration of the Family Legacy drawdown page
(sidebar inputs and editable tables, page 2 lines 63-127).  `numKids`
is kept in the field `α` since the source only ever multiplies by it. -/
structure LegacyConfig (α : Type) where
  startPrice : α
  initialBtc : α
  parentsSpend : α
  numKids : α
  kidsStartYear : ℕ
  kidAllowance : α
  inflation : α
  taxRate : α
  safeWithdrawRate : α
  events : List (ℕ × α)
  engine : GrowthEngine α

/-- One row of the drawdown ledger (`history.append({...})`, page 2
lines 133 and 159). -/
structure LegacyRow (α : Type) where
  year : ℕ
  btc : α
  price : α
  value : α
  parentCost : α
  kidsCost : α
  lumpSums : α
  taxPaid : α
  totalDrawdown : α
  fiTarget : α
  status : Status

/-- The loop-carried state of page 2 line 131:
`curr_btc`, `curr_price`, `status`, `fi_year`/`fi_found`, `fail_year`. -/
structure LegacyState (α : Type) where
  btc : α
  price : α
  status : Status
  fiYear : Option ℕ
  fiFound : Bool
  failYear : Option ℕ

/-- Initial loop state (page 2 line 131): holdings and price from the
configuration, status `Sustainable`, no FI year, no fail year. -/
def legacyInit (cfg : LegacyConfig α) : LegacyState α :=
  ⟨cfg.initialBtc, cfg.startPrice, Status.Sustainable, none, false, none⟩

/-- The year-0 snapshot row (page 2 line 133). -/
def legacyRow0 (cfg : LegacyConfig α) : LegacyRow α :=
  ⟨0, cfg.initialBtc, cfg.startPrice, cfg.initialBtc * cfg.startPrice,
    0, 0, 0, 0, 0, cfg.parentsSpend * cfg.safeWithdrawRate, Status.Sustainable⟩

/-- Price advance for year `y` (page 2 lines 136-143): manual mode
multiplies the previous row's price by `1 + g`; power-law mode ignores
the previous price and evaluates the year-indexed price function. -/
def legacyPrice (cfg : LegacyConfig α) (y : ℕ) (prevPrice : α) : α :=
  match cfg.engine with
  | GrowthEngine.manual table => prevPrice * (1 + rateLookup table y)
  | GrowthEngine.powerLawSD priceAt => priceAt y

/-- Source: `cost_parents = parents_spend * idx_rate` with
`idx_rate = (1 + inflation) ** y` (page 2 lines 145-146). -/
def legacyCostParents (cfg : LegacyConfig α) (y : ℕ) : α :=
  cfg.parentsSpend * (1 + cfg.inflation) ^ y

/-- Source: `cost_kids = (kid_allowance * num_kids * idx_rate) if y >= kids_start_year else 0`
(page 2 line 147). -/
def legacyCostKids (cfg : LegacyConfig α) (y : ℕ) : α :=
  if cfg.kidsStartYear ≤ y then cfg.kidAllowance * cfg.numKids * (1 + cfg.inflation) ^ y else 0

/-- Source: `cost_lump = events_lookup.get(y, 0) * idx_rate` (page 2 line 148). -/
def legacyCostLump (cfg : LegacyConfig α) (y : ℕ) : α :=
  eventsAmount cfg.events y * (1 + cfg.inflation) ^ y

/-- Source: `total_net_needed = cost_parents + cost_kids + cost_lump`
(page 2 line 149). -/
def legacyTotalNet (cfg : LegacyConfig α) (y : ℕ) : α :=
  legacyCostParents cfg y + legacyCostKids cfg y + legacyCostLump cfg y

/-- Source: `btc_sold = gross_sell / curr_price` (page 2 line 153). -/
def legacyBtcSold (cfg : LegacyConfig α) (y : ℕ) (s : LegacyState α) : α :=
  (gross_up (legacyTotalNet cfg y) cfg.taxRate).1 / legacyPrice cfg y s.price

/-- Source: `curr_btc -= btc_sold` (page 2 line 153), before the clamp. -/
def legacyBtcAfter (cfg : LegacyConfig α) (y : ℕ) (s : LegacyState α) : α :=
  s.btc - legacyBtcSold cfg y s

/-- Source: `if curr_btc < 0: curr_btc = 0` (page 2 line 155): the clamp. -/
def legacyNewBtc (cfg : LegacyConfig α) (y : ℕ) (s : LegacyState α) : α :=
  if legacyBtcAfter cfg y s < 0 then 0 else legacyBtcAfter cfg y s

/-- Source: `if curr_btc < 0: ... status = "Failed"` (page 2 line 155): status
only ever moves to `Failed`, never back. -/
def legacyNewStatus (cfg : LegacyConfig α) (y : ℕ) (s : LegacyState α) : Status :=
  if legacyBtcAfter cfg y s < 0 then Status.Failed else s.status

/-- Source: `fi_target = total_net_needed * safe_withdraw_rate` (page 2 line 156). -/
def legacyFiTarget (cfg : LegacyConfig α) (y : ℕ) : α :=
  legacyTotalNet cfg y * cfg.safeWithdrawRate

/-- Source: `portfolio_val = curr_btc * curr_price` (page 2 line 156), with the
clamped holdings. -/
def legacyPortfolioVal (cfg : LegacyConfig α) (y : ℕ) (s : LegacyState α) : α :=
  legacyNewBtc cfg y s * legacyPrice cfg y s.price

/-- The FI one-shot condition (page 2 line 157):
`not fi_found and portfolio_val >= fi_target and status == "Sustainable"`
(evaluated on the post-clamp status). -/
def legacyFiFires (cfg : LegacyConfig α) (y : ℕ) (s : LegacyState α) : Prop :=
  s.fiFound = false ∧ legacyFiTarget cfg y ≤ legacyPortfolioVal cfg y s ∧
    legacyNewStatus cfg y s = Status.Sustainable

instance legacyFiFiresDecidable (cfg : LegacyConfig α) (y : ℕ) (s : LegacyState α) :
    Decidable (legacyFiFires cfg y s) := by
  unfold legacyFiFires
  infer_instance

/-- One iteration of the drawdown loop body (page 2 lines 135-159) for
year `y` on state `s`; returns the new state and the appended row.
Mirrors the source statement by statement: price advance, indexed
costs, gross-up, unit sale, clamp-and-fail (`if curr_btc < 0: curr_btc
= 0; status = "Failed"; fail_year = y if status == "Sustainable" else
fail_year` — note the source tests `status` after already assigning
`"Failed"` to it, so `fail_year` always keeps its previous value), FI
threshold check, row append. -/
def legacyStep (cfg : LegacyConfig α) (y : ℕ) (s : LegacyState α) :
    LegacyState α × LegacyRow α :=
  (⟨legacyNewBtc cfg y s, legacyPrice cfg y s.price, legacyNewStatus cfg y s,
    if legacyFiFires cfg y s then some y else s.fiYear,
    if legacyFiFires cfg y s then true else s.fiFound,
    if legacyBtcAfter cfg y s < 0 then
      (if legacyNewStatus cfg y s = Status.Sustainable then some y else s.failYear)
    else s.failYear⟩,
   ⟨y, legacyNewBtc cfg y s, legacyPrice cfg y s.price, legacyPortfolioVal cfg y s,
     legacyCostParents cfg y, legacyCostKids cfg y, legacyCostLump cfg y,
     (gross_up (legacyTotalNet cfg y) cfg.taxRate).2, legacyTotalNet cfg y,
     legacyFiTarget cfg y, legacyNewStatus cfg y s⟩)

/-- The loop state after processing years `1..y` (state `0` is the
initial state of page 2 line 131). -/
def legacyStates (cfg : LegacyConfig α) : ℕ → LegacyState α
  | 0 => legacyInit cfg
  | y + 1 => (legacyStep cfg (y + 1) (legacyStates cfg y)).1

/-- The ledger row appended for year `y` (`y = 0` is the snapshot row). -/
def legacyRow (cfg : LegacyConfig α) : ℕ → LegacyRow α
  | 0 => legacyRow0 cfg
  | y + 1 => (legacyStep cfg (y + 1) (legacyStates cfg y)).2

/-- The full ledger `history` for a horizon of `horizon` projected
years: rows `0..horizon` in ascending year order. -/
def legacyLedger (cfg : LegacyConfig α) (horizon : ℕ) : List (LegacyRow α) :=
  (List.range (horizon + 1)).map (legacyRow cfg)

/-- Configuration of the Wealth Accelerator accumulation page
(page 3 lines 32-64). -/
structure WAConfig (α : Type) where
  startPrice : α
  lumpSum : α
  annualContrib : α
  engine : GrowthEngine α

/-- One row of the accumulation ledger (page 3 lines 65 and 79). -/
structure WARow (α : Type) where
  year : ℕ
  price : α
  stack : α
  invested : α
  value : α
  roi : α

/-- Loop-carried state of page 3 line 64: current price, BTC stack,
cumulative invested cash. -/
structure WAState (α : Type) where
  price : α
  stack : α
  invested : α

/-- Initial accumulation state (page 3 line 64):
`btc_stack = initial_lump_sum / start_price`,
`total_invested_cash = initial_lump_sum`, `curr_price = start_price`. -/
def waInit (cfg : WAConfig α) : WAState α :=
  ⟨cfg.startPrice, cfg.lumpSum / cfg.startPrice, cfg.lumpSum⟩

/-- The year-0 accumulation row (page 3 line 65) — note its `ROI (x)`
is the literal `1.0`, not the guarded ratio of line 78. -/
def waRow0 (cfg : WAConfig α) : WARow α :=
  ⟨0, cfg.startPrice, cfg.lumpSum / cfg.startPrice, cfg.lumpSum,
    (cfg.lumpSum / cfg.startPrice) * cfg.startPrice, 1⟩

/-- One iteration of the accumulation loop body (page 3 lines 67-79):
price advance, dollar-cost-average purchase at the year's average
price, stack and invested-cash update, and the guarded ROI
`roi = portfolio_val / total_invested_cash if total_invested_cash > 0 else 0`. -/
def waStep (cfg : WAConfig α) (y : ℕ) (s : WAState α) : WAState α × WARow α :=
  let prevPrice := s.price
  let price :=
    match cfg.engine with
    | GrowthEngine.manual table => s.price * (1 + rateLookup table y)
    | GrowthEngine.powerLawSD priceAt => priceAt y
  let avgPrice := (prevPrice + price) / 2
  let purchased := cfg.annualContrib / avgPrice
  let stack := s.stack + purchased
  let invested := s.invested + cfg.annualContrib
  let value := stack * price
  let roi := if 0 < invested then value / invested else 0
  (⟨price, stack, invested⟩, ⟨y, price, stack, invested, value, roi⟩)

/-- Accumulation loop state after years `1..y`. -/
def waStates (cfg : WAConfig α) : ℕ → WAState α
  | 0 => waInit cfg
  | y + 1 => (waStep cfg (y + 1) (waStates cfg y)).1

/-- The accumulation ledger row for year `y`. -/
def waRow (cfg : WAConfig α) : ℕ → WARow α
  | 0 => waRow0 cfg
  | y + 1 => (waStep cfg (y + 1) (waStates cfg y)).2

/-- Source: `get_power_law_price(days_since_genesis, aud_usd)` (page 2 lines
14-16): `((10**-17) * (days_since_genesis**5.82)) / aud_usd`. -/
noncomputable def get_power_law_price (days_since_genesis aud_usd : ℝ) : ℝ :=
  ((10 : ℝ) ^ (-17 : ℤ) * days_since_genesis ^ (5.82 : ℝ)) / aud_usd

/-- Source: `sd_to_multiplier(sd) = 10 ** (sd * PL_SD_LOG)` with
`PL_SD_LOG = 0.35` (page 2 lines 12 and 18-20). -/
noncomputable def sd_to_multiplier (sd : ℝ) : ℝ :=
  (10 : ℝ) ^ (sd * 0.35)

/-- The explicit-SD power-law projected price of the drawdown page
(page 2 lines 141-143): `future_days = start_days + y * 365`;
`curr_price = get_power_law_price(future_days, aud_usd) * sd_to_multiplier(pl_scenario)`.
A function of the reference date (`startDays`), FX rate and scenario SD
only. -/
noncomputable def plSDPrice (startDays : ℕ) (aud_usd sd : ℝ) (y : ℕ) : ℝ :=
  get_power_law_price ((startDays + y * 365 : ℕ) : ℝ) aud_usd * sd_to_multiplier sd

/-- Source: `anchor_ratio = start_price / raw_pl_aud` where
`raw_pl_aud = ((10**-17) * (days_today**5.82)) / 0.65`
(page 3 line 61, FX fixed at 0.65 in the source). -/
noncomputable def anchor_ratio (startPrice : ℝ) (daysToday : ℕ) : ℝ :=
  startPrice / get_power_law_price (daysToday : ℝ) 0.65

/-- The anchored power-law projected price (page 3 line 74):
`curr_price = (((10**-17) * (future_days**5.82)) / 0.65) * anchor_ratio`
with `future_days = start_days + y * 365`.  At `y = 0` this is the
power-law median today times the anchor ratio. -/
noncomputable def anchoredPriceAt (startPrice : ℝ) (startDays : ℕ) (y : ℕ) : ℝ :=
  get_power_law_price ((startDays + y * 365 : ℕ) : ℝ) 0.65 * anchor_ratio startPrice startDays

/-! ### Basic structural lemmas -/

/-- The ledger row's recorded status is exactly the loop status. -/
theorem legacyRow_status_eq (cfg : LegacyConfig α) :
    ∀ y, (legacyRow cfg y).status = (legacyStates cfg y).status
  | 0 => rfl
  | _ + 1 => rfl

/-- The ledger row's recorded holdings are exactly the loop holdings. -/
theorem legacyRow_btc_eq (cfg : LegacyConfig α) :
    ∀ y, (legacyRow cfg y).btc = (legacyStates cfg y).btc
  | 0 => rfl
  | _ + 1 => rfl

/-- The ledger row's recorded price is exactly the loop price. -/
theorem legacyRow_price_eq (cfg : LegacyConfig α) :
    ∀ y, (legacyRow cfg y).price = (legacyStates cfg y).price
  | 0 => rfl
  | _ + 1 => rfl

/-! ### C4: tax gross-up -/

/-- C4.  For every net amount `net ≥ 0` and tax rate `0 ≤ t < 1`, the
gross-up of page 2 lines 151-152 returns `gross = net / (1 - t)` and
`tax = gross - net`, and the round trip `gross * (1 - t) = net` holds
exactly. -/
theorem tax_gross_up_round_trip (net t : α) (hnet : 0 ≤ net) (h0 : 0 ≤ t)
    (h1 : t < 1) :
    (gross_up net t).1 = net / (1 - t) ∧
    (gross_up net t).2 = (gross_up net t).1 - net ∧
    (gross_up net t).1 * (1 - t) = net := by
  have hpos : (0 : α) < 1 - t := by linarith
  have hg : (gross_up net t).1 = net / (1 - t) := by
    unfold gross_up
    simp [if_pos h1]
  refine ⟨hg, rfl, ?_⟩
  rw [hg]
  exact div_mul_cancel₀ net (ne_of_gt hpos)

/-- Witness for C4 at `net = 100`, `t = 1/4` over ℚ. -/
theorem tax_gross_up_round_trip_witness :
    (gross_up (100 : ℚ) (1/4)).1 = 100 / (1 - 1/4) ∧
    (gross_up (100 : ℚ) (1/4)).2 = (gross_up (100 : ℚ) (1/4)).1 - 100 ∧
    (gross_up (100 : ℚ) (1/4)).1 * (1 - 1/4) = 100 :=
  tax_gross_up_round_trip 100 (1/4) (by norm_num) (by norm_num) (by norm_num)

/-! ### C8: manual-rate lookup with fallback -/

/-- With no duplicate year keys, `find?` retrieves exactly the stored
entry for a year that is present. -/
theorem find?_year_eq_some (t : List (ℕ × α)) (y : ℕ) (p : α)
    (hnd : (t.map Prod.fst).Nodup) (hmem : (y, p) ∈ t) :
    t.find? (fun e => e.1 == y) = some (y, p) := by
  induction t with
  | nil => cases hmem
  | cons a t ih =>
    rcases List.mem_cons.mp hmem with heq | hmem'
    · subst heq
      exact List.find?_cons_of_pos _ (by simp)
    · have hnd' : (a.1 :: t.map Prod.fst).Nodup := by
        rw [List.map_cons] at hnd
        exact hnd
      obtain ⟨hhead, htail⟩ := List.nodup_cons.mp hnd'
      have hay : a.1 ≠ y := by
        intro h
        exact hhead (h ▸ List.mem_map_of_mem Prod.fst hmem')
      rw [List.find?_cons_of_neg _ (by simpa using hay)]
      exact ih htail hmem'

/-- C8.  The manual-cycle rate lookup (page 2 lines 137-138, page 3
lines 70-71): a year with no table entry gets the fixed 5% fallback
(`except: g = 0.05`) and the projection proceeds (the lookup is a total
function); a year whose entry is present (the table having one entry
per year) gets that entry's value divided by 100. -/
theorem rateLookup_fallback_and_exact (table : List (ℕ × α)) (y : ℕ) :
    ((∀ e ∈ table, e.1 ≠ y) → rateLookup table y = 5 / 100) ∧
    ((table.map Prod.fst).Nodup → ∀ p, (y, p) ∈ table → rateLookup table y = p / 100) := by
  constructor
  · intro h
    unfold rateLookup
    have hnone : table.find? (fun e => e.1 == y) = none := by
      rw [List.find?_eq_none]
      intro e he
      simpa using h e he
    rw [hnone]
  · intro hnd p hmem
    unfold rateLookup
    rw [find?_year_eq_some table y p hnd hmem]

/-- Witness-style instance for C8: on the table `[(1, 60), (2, 15)]`
year 7 falls back to 5% and year 2 reads 15%. -/
theorem rateLookup_fallback_and_exact_witness :
    rateLookup [((1 : ℕ), (60 : ℚ)), (2, 15)] 7 = 5 / 100 ∧
    rateLookup [((1 : ℕ), (60 : ℚ)), (2, 15)] 2 = 15 / 100 :=
  ⟨(rateLookup_fallback_and_exact [(1, 60), (2, 15)] 7).1 (by decide),
   (rateLookup_fallback_and_exact [(1, 60), (2, 15)] 2).2 (by decide) 15 (by decide)⟩

/-! ### C7: manual-cycle price equals the cumulative product -/

/-- In manual mode the loop price advances by `1 + rate(y)` each year. -/
theorem legacyStates_price_manual (cfg : LegacyConfig α) (table : List (ℕ × α))
    (h : cfg.engine = GrowthEngine.manual table) (y : ℕ) :
    (legacyStates cfg (y + 1)).price =
      (legacyStates cfg y).price * (1 + rateLookup table (y + 1)) := by
  show (legacyStep cfg (y + 1) (legacyStates cfg y)).1.price = _
  simp only [legacyStep, legacyPrice, h]

/-- C7.  In manual-cycle mode the ledger price after year `n` — the
result of iterating `curr_price = prev_price * (1 + g)` in ascending
year order (page 2 lines 136-139; the identical recurrence is at page 1
lines 133-136) — equals the starting price times the cumulative product
`Π (1 + rate(i))` over years `1..n`. -/
theorem manual_price_cumulative_product (cfg : LegacyConfig α)
    (table : List (ℕ × α)) (h : cfg.engine = GrowthEngine.manual table) (n : ℕ) :
    (legacyRow cfg n).price =
      cfg.startPrice *
        (((List.range n).map fun i => 1 + rateLookup table (i + 1)).prod) := by
  rw [legacyRow_price_eq]
  induction n with
  | zero => simp [legacyStates, legacyInit]
  | succ k ih =>
    rw [legacyStates_price_manual cfg table h k, ih, List.range_succ]
    simp only [List.map_append, List.prod_append, List.map_cons, List.map_nil,
      List.prod_cons, List.prod_nil]
    ring

/-- Witness for C7: a concrete two-year manual-cycle configuration. -/
theorem manual_price_cumulative_product_witness :
    (legacyRow
        (⟨100000, 1, 20000, 0, 50, 0, 0, 0, 25, [],
          GrowthEngine.manual [(1, 60), (2, 15)]⟩ : LegacyConfig ℚ) 2).price =
      (100000 : ℚ) *
        (((List.range 2).map fun i => 1 + rateLookup [((1 : ℕ), (60 : ℚ)), (2, 15)] (i + 1)).prod) :=
  manual_price_cumulative_product _ [(1, 60), (2, 15)] rfl 2

/-! ### C5: accumulation ROI guard -/

/-- C5 (amended).  For every accumulation configuration, every row of
year `y ≥ 1` records `roi = value / invested` when cumulative invested
cash is positive and `0` otherwise (page 3 line 78) — but the year-0
row records the hardcoded literal `1.0` (page 3 line 65), which is not
the guarded ratio when the initial lump sum is `0`. -/
theorem wa_roi_guarded (cfg : WAConfig α) :
    (waRow cfg 0).roi = 1 ∧
    ∀ y, 1 ≤ y →
      (waRow cfg y).roi =
        if 0 < (waRow cfg y).invested then
          (waRow cfg y).value / (waRow cfg y).invested
        else 0 := by
  refine ⟨rfl, ?_⟩
  intro y hy
  cases y with
  | zero => exact absurd hy (by omega)
  | succ k => rfl

/-- Accumulation configuration with a zero initial lump sum
(`starting_price = 10000`, `initial_lump_sum = 0`,
`annual_contribution = 1200`). -/
def waCfgZeroLump : WAConfig ℚ :=
  ⟨10000, 0, 1200, GrowthEngine.manual []⟩

/-- Counterexample to C5 as stated: with a zero initial lump sum the
year-0 row has cumulative invested cash `0` yet records an ROI of `1`,
not the claimed `0`. -/
theorem wa_roi_year0_not_guarded :
    (waRow waCfgZeroLump 0).invested = 0 ∧
    (waRow waCfgZeroLump 0).roi = 1 ∧
    ¬ (waRow waCfgZeroLump 0).roi = 0 := by
  refine ⟨rfl, rfl, ?_⟩
  norm_num [waRow, waRow0, waCfgZeroLump]

/-! ### Solvency state machine: absorbing Failed status -/

/-- The loop status is never reset: one step maps a Failed state to a
Failed state (page 2 line 155 only ever assigns `"Failed"`). -/
theorem legacyStep_status_failed (cfg : LegacyConfig α) (y : ℕ)
    (s : LegacyState α) (h : s.status = Status.Failed) :
    (legacyStep cfg y s).1.status = Status.Failed := by
  simp only [legacyStep]
  unfold legacyNewStatus
  split
  · rfl
  · exact h

/-- Failed is absorbing across years, for every configuration. -/
theorem legacyStates_failed_mono (cfg : LegacyConfig α) {i j : ℕ} (hij : i ≤ j)
    (h : (legacyStates cfg i).status = Status.Failed) :
    (legacyStates cfg j).status = Status.Failed := by
  induction j, hij using Nat.le_induction with
  | base => exact h
  | succ n _ ih => exact legacyStep_status_failed cfg (n + 1) _ ih

/-- The status type has exactly the two states of the source's strings. -/
theorem status_sustainable_of_ne_failed {st : Status}
    (h : ¬ st = Status.Failed) : st = Status.Sustainable := by
  cases st
  · rfl
  · exact absurd rfl h

/-- One step never produces negative holdings (the clamp of page 2
line 155). -/
theorem legacyStep_btc_nonneg (cfg : LegacyConfig α) (y : ℕ) (s : LegacyState α) :
    0 ≤ (legacyStep cfg y s).1.btc := by
  simp only [legacyStep]
  unfold legacyNewBtc
  split
  · exact le_refl 0
  · next h => exact le_of_not_lt h

/-! ### C1 hypotheses: positive prices, non-negative needs -/

/-- Every projected price stays positive: a positive starting price
and, in manual mode, every table growth rate above −100% (the 5%
fallback always qualifies); in power-law mode a positive price
function. -/
def PositivePrices (cfg : LegacyConfig α) : Prop :=
  0 < cfg.startPrice ∧
    match cfg.engine with
    | GrowthEngine.manual table => ∀ e ∈ table, 0 < 1 + e.2 / 100
    | GrowthEngine.powerLawSD priceAt => ∀ y, 0 < priceAt y

/-- All cash-flow inputs non-negative and inflation at least −100%, so
every year's net need is non-negative. -/
def NonnegNeeds (cfg : LegacyConfig α) : Prop :=
  0 ≤ cfg.parentsSpend ∧ 0 ≤ cfg.kidAllowance ∧ 0 ≤ cfg.numKids ∧
    0 ≤ 1 + cfg.inflation ∧ ∀ e ∈ cfg.events, 0 ≤ e.2

/-- Under `PositivePrices`, the rate factor `1 + g` is positive for
every year, looked up or fallback. -/
theorem rateFactor_pos (table : List (ℕ × α))
    (h : ∀ e ∈ table, 0 < 1 + e.2 / 100) (y : ℕ) :
    0 < 1 + rateLookup table y := by
  unfold rateLookup
  cases hf : table.find? (fun e => e.1 == y) with
  | none => norm_num
  | some e => exact h e (List.mem_of_find?_eq_some hf)

/-- Under `PositivePrices` the loop price is positive every year. -/
theorem legacyStates_price_pos (cfg : LegacyConfig α) (hp : PositivePrices cfg) :
    ∀ y, 0 < (legacyStates cfg y).price := by
  intro y
  induction y with
  | zero => exact hp.1
  | succ k ih =>
    show 0 < legacyPrice cfg (k + 1) (legacyStates cfg k).price
    unfold legacyPrice
    obtain ⟨-, hp2⟩ := hp
    cases he : cfg.engine with
    | manual table =>
      rw [he] at hp2
      exact mul_pos ih (rateFactor_pos table hp2 (k + 1))
    | powerLawSD priceAt =>
      rw [he] at hp2
      exact hp2 (k + 1)

/-- Event amounts that are all non-negative sum to a non-negative
lump-sum contribution. -/
theorem eventsAmount_nonneg (events : List (ℕ × α))
    (h : ∀ e ∈ events, 0 ≤ e.2) (y : ℕ) : 0 ≤ eventsAmount events y := by
  unfold eventsAmount
  apply List.sum_nonneg
  intro x hx
  obtain ⟨e, he, rfl⟩ := List.mem_map.mp hx
  exact h e (List.mem_of_mem_filter he)

/-- Under `NonnegNeeds` every year's total net need is non-negative. -/
theorem legacyTotalNet_nonneg (cfg : LegacyConfig α) (hn : NonnegNeeds cfg)
    (y : ℕ) : 0 ≤ legacyTotalNet cfg y := by
  obtain ⟨h1, h2, h3, h4, h5⟩ := hn
  have hidx : 0 ≤ (1 + cfg.inflation) ^ y := pow_nonneg h4 y
  unfold legacyTotalNet legacyCostParents legacyCostKids legacyCostLump
  have hpar : 0 ≤ cfg.parentsSpend * (1 + cfg.inflation) ^ y := mul_nonneg h1 hidx
  have hkids :
      0 ≤ if cfg.kidsStartYear ≤ y then
            cfg.kidAllowance * cfg.numKids * (1 + cfg.inflation) ^ y else 0 := by
    split
    · exact mul_nonneg (mul_nonneg h2 h3) hidx
    · exact le_refl 0
  have hlump : 0 ≤ eventsAmount cfg.events y * (1 + cfg.inflation) ^ y :=
    mul_nonneg (eventsAmount_nonneg cfg.events h5 y) hidx
  linarith

/-- The gross sale never goes negative when the net need is
non-negative (either branch of page 2 line 151). -/
theorem gross_up_fst_nonneg (net t : α) (h : 0 ≤ net) : 0 ≤ (gross_up net t).1 := by
  unfold gross_up
  dsimp only
  split
  · next hlt => exact div_nonneg h (by linarith)
  · exact h

/-- One step of the loop keeps the invariant "a Failed state has zero
holdings", given a positive current price and non-negative needs. -/
theorem legacyStep_failed_btc_zero (cfg : LegacyConfig α) (y : ℕ)
    (s : LegacyState α) (hn : NonnegNeeds cfg)
    (hpr : 0 < legacyPrice cfg y s.price)
    (hs : s.status = Status.Failed → s.btc = 0) :
    (legacyStep cfg y s).1.status = Status.Failed →
      (legacyStep cfg y s).1.btc = 0 := by
  have hsold : 0 ≤ legacyBtcSold cfg y s := by
    unfold legacyBtcSold
    exact div_nonneg (gross_up_fst_nonneg _ _ (legacyTotalNet_nonneg cfg hn y)) hpr.le
  simp only [legacyStep]
  unfold legacyNewStatus legacyNewBtc
  split
  · intro _
    rfl
  · next hnlt =>
    intro hfail
    have hb0 : s.btc = 0 := hs hfail
    have hba : 0 ≤ legacyBtcAfter cfg y s := le_of_not_lt hnlt
    have hba' : legacyBtcAfter cfg y s ≤ 0 := by
      unfold legacyBtcAfter
      rw [hb0]
      linarith
    linarith

/-- Across years: a Failed state has zero holdings, under positive
prices and non-negative needs. -/
theorem legacyStates_failed_btc_zero (cfg : LegacyConfig α)
    (hp : PositivePrices cfg) (hn : NonnegNeeds cfg) (y : ℕ) :
    (legacyStates cfg y).status = Status.Failed → (legacyStates cfg y).btc = 0 := by
  induction y with
  | zero =>
    intro h
    exact absurd h (by simp [legacyStates, legacyInit])
  | succ k ih =>
    exact legacyStep_failed_btc_zero cfg (k + 1) (legacyStates cfg k) hn
      (by
        have := legacyStates_price_pos cfg hp (k + 1)
        exact this) ih

/-! ### C1 (amended): the Failed state machine -/

/-- C1 (amended).  With non-negative starting holdings, projected
prices all positive and all cash-flow inputs non-negative: no ledger
row ever records negative holdings, and once a row's status is Failed
every later row is Failed with holdings exactly 0.  (Without the
positivity hypothesis the source can revive holdings after failure:
see `legacy_failed_row_positive_btc`.) -/
theorem drawdown_failed_absorbing (cfg : LegacyConfig α)
    (hb0 : 0 ≤ cfg.initialBtc) (hp : PositivePrices cfg) (hn : NonnegNeeds cfg) :
    (∀ y, 0 ≤ (legacyRow cfg y).btc) ∧
    (∀ i j, i ≤ j → (legacyRow cfg i).status = Status.Failed →
      (legacyRow cfg j).status = Status.Failed ∧ (legacyRow cfg j).btc = 0) := by
  constructor
  · intro y
    rw [legacyRow_btc_eq]
    cases y with
    | zero => exact hb0
    | succ k => exact legacyStep_btc_nonneg cfg (k + 1) (legacyStates cfg k)
  · intro i j hij hfail
    rw [legacyRow_status_eq] at hfail
    have hj : (legacyStates cfg j).status = Status.Failed :=
      legacyStates_failed_mono cfg hij hfail
    refine ⟨by rw [legacyRow_status_eq]; exact hj, ?_⟩
    rw [legacyRow_btc_eq]
    exact legacyStates_failed_btc_zero cfg hp hn j hj

/-! ### C9: the one-shot FI / solvency-reached marker -/

/-- Unfolding lemma: the loop's `fi_year` after year `y + 1`. -/
theorem legacyStates_succ_fiYear (cfg : LegacyConfig α) (n : ℕ) :
    (legacyStates cfg (n + 1)).fiYear =
      if legacyFiFires cfg (n + 1) (legacyStates cfg n) then some (n + 1)
      else (legacyStates cfg n).fiYear := rfl

/-- Unfolding lemma: the loop's `fi_found` after year `y + 1`. -/
theorem legacyStates_succ_fiFound (cfg : LegacyConfig α) (n : ℕ) :
    (legacyStates cfg (n + 1)).fiFound =
      if legacyFiFires cfg (n + 1) (legacyStates cfg n) then true
      else (legacyStates cfg n).fiFound := rfl

/-- Unfolding lemma: the loop's status after year `y + 1`. -/
theorem legacyStates_succ_status (cfg : LegacyConfig α) (n : ℕ) :
    (legacyStates cfg (n + 1)).status =
      legacyNewStatus cfg (n + 1) (legacyStates cfg n) := rfl

/-- A recorded FI year implies the one-shot flag is set. -/
theorem legacyStates_found_of_fiYear (cfg : LegacyConfig α) :
    ∀ y k, (legacyStates cfg y).fiYear = some k →
      (legacyStates cfg y).fiFound = true := by
  intro y
  induction y with
  | zero => intro k h; cases h
  | succ n ih =>
    intro k h
    rw [legacyStates_succ_fiFound]
    by_cases hf : legacyFiFires cfg (n + 1) (legacyStates cfg n)
    · rw [if_pos hf]
    · rw [if_neg hf]
      rw [legacyStates_succ_fiYear, if_neg hf] at h
      exact ih k h

/-- Once recorded, the FI year never changes. -/
theorem legacyStates_fiYear_frozen (cfg : LegacyConfig α) {i j : ℕ} (k : ℕ)
    (hij : i ≤ j) (h : (legacyStates cfg i).fiYear = some k) :
    (legacyStates cfg j).fiYear = some k := by
  induction j, hij using Nat.le_induction with
  | base => exact h
  | succ n _ ih =>
    have hfound := legacyStates_found_of_fiYear cfg n k ih
    rw [legacyStates_succ_fiYear, if_neg]
    · exact ih
    · intro hf
      obtain ⟨hf1, -, -⟩ := hf
      rw [hfound] at hf1
      cases hf1

/-- A row with Sustainable status has Sustainable status in all earlier
rows (contrapositive of the absorbing Failed state). -/
theorem legacyRow_sustainable_before (cfg : LegacyConfig α) {k : ℕ}
    (h : (legacyRow cfg k).status = Status.Sustainable) :
    ∀ j, j ≤ k → (legacyRow cfg j).status = Status.Sustainable := by
  intro j hj
  apply status_sustainable_of_ne_failed
  intro hfail
  rw [legacyRow_status_eq] at hfail h
  rw [legacyStates_failed_mono cfg hj hfail] at h
  cases h

/-- C9.  In every drawdown run the solvency-reached marker `fi_year`
is written at most once (once `some`, it never changes), and a recorded
year `k` is a projected year (`1 ≤ k`) no later than the current one
whose row is Sustainable with portfolio value at least the FI target
`net_need × safety_multiple`; moreover no year up to `k` is Failed, so
the marker is never set in or after a Failed year (page 2 lines
156-157). -/
theorem fi_marker_one_shot (cfg : LegacyConfig α) :
    (∀ i j k, i ≤ j → (legacyStates cfg i).fiYear = some k →
      (legacyStates cfg j).fiYear = some k) ∧
    (∀ y k, (legacyStates cfg y).fiYear = some k →
      1 ≤ k ∧ k ≤ y ∧
      (legacyRow cfg k).status = Status.Sustainable ∧
      (legacyRow cfg k).fiTarget ≤ (legacyRow cfg k).value ∧
      ∀ j, j ≤ k → (legacyRow cfg j).status = Status.Sustainable) := by
  constructor
  · intro i j k hij h
    exact legacyStates_fiYear_frozen cfg k hij h
  · intro y
    induction y with
    | zero => intro k h; cases h
    | succ n ih =>
      intro k h
      by_cases hf : legacyFiFires cfg (n + 1) (legacyStates cfg n)
      · rw [legacyStates_succ_fiYear, if_pos hf] at h
        obtain ⟨-, htarget, hstatus⟩ := hf
        cases h
        have hrow : (legacyRow cfg (n + 1)).status = Status.Sustainable := by
          rw [legacyRow_status_eq, legacyStates_succ_status]
          exact hstatus
        refine ⟨by omega, le_refl _, hrow, htarget, ?_⟩
        exact legacyRow_sustainable_before cfg hrow
      · rw [legacyStates_succ_fiYear, if_neg hf] at h
        obtain ⟨h1, h2, h3, h4, h5⟩ := ih k h
        exact ⟨h1, by omega, h3, h4, h5⟩

/-! ### C10: the explicit-SD power-law price ignores the starting price -/

/-- In power-law mode the loop price of year `y ≥ 1` is exactly the
year-indexed power-law value, whatever the rest of the configuration. -/
theorem legacyRow_price_powerLaw (cfg : LegacyConfig α) (f : ℕ → α)
    (h : cfg.engine = GrowthEngine.powerLawSD f) (y : ℕ) :
    (legacyRow cfg (y + 1)).price = f (y + 1) := by
  show legacyPrice cfg (y + 1) (legacyStates cfg y).price = f (y + 1)
  unfold legacyPrice
  rw [h]

/-- C10.  Under the explicit-SD power-law engine (page 2 lines
141-143) the modeled price of every year `y ≥ 1` is `plSDPrice
startDays fx sd y` — a function of the reference date, FX rate and
scenario SD only — so two drawdown runs differing in starting price
(or any other field) have identical modeled prices for all `y ≥ 1`,
while each year-0 row records its own starting price (page 2 line 133). -/
theorem powerLaw_price_independent_of_start (cfg₁ cfg₂ : LegacyConfig ℝ)
    (d : ℕ) (fx sd : ℝ)
    (h₁ : cfg₁.engine = GrowthEngine.powerLawSD (plSDPrice d fx sd))
    (h₂ : cfg₂.engine = GrowthEngine.powerLawSD (plSDPrice d fx sd)) :
    (∀ y, 1 ≤ y →
      (legacyRow cfg₁ y).price = plSDPrice d fx sd y ∧
      (legacyRow cfg₁ y).price = (legacyRow cfg₂ y).price) ∧
    (legacyRow cfg₁ 0).price = cfg₁.startPrice ∧
    (legacyRow cfg₂ 0).price = cfg₂.startPrice := by
  refine ⟨?_, rfl, rfl⟩
  intro y hy
  cases y with
  | zero => exact absurd hy (by omega)
  | succ k =>
    have e₁ := legacyRow_price_powerLaw cfg₁ (plSDPrice d fx sd) h₁ k
    have e₂ := legacyRow_price_powerLaw cfg₂ (plSDPrice d fx sd) h₂ k
    exact ⟨e₁, by rw [e₁, e₂]⟩

/-- A concrete explicit-SD drawdown configuration (starting price
150000). -/
noncomputable def legacyCfgSD_A : LegacyConfig ℝ :=
  ⟨150000, 10, 120000, 3, 15, 60000, 3/100, 23/100, 25, [],
    GrowthEngine.powerLawSD (plSDPrice 6000 (65/100) 0)⟩

/-- The same configuration with a different starting price (300000). -/
noncomputable def legacyCfgSD_B : LegacyConfig ℝ :=
  ⟨300000, 10, 120000, 3, 15, 60000, 3/100, 23/100, 25, [],
    GrowthEngine.powerLawSD (plSDPrice 6000 (65/100) 0)⟩

/-- Witness for C10: the two concrete runs above share all modeled
prices from year 1 on, and each year-0 row records its own start. -/
theorem powerLaw_price_independent_of_start_witness :
    (∀ y, 1 ≤ y →
      (legacyRow legacyCfgSD_A y).price = plSDPrice 6000 (65/100) 0 y ∧
      (legacyRow legacyCfgSD_A y).price = (legacyRow legacyCfgSD_B y).price) ∧
    (legacyRow legacyCfgSD_A 0).price = legacyCfgSD_A.startPrice ∧
    (legacyRow legacyCfgSD_B 0).price = legacyCfgSD_B.startPrice :=
  powerLaw_price_independent_of_start legacyCfgSD_A legacyCfgSD_B 6000 (65/100) 0 rfl rfl

/-! ### C6: anchored power-law — anchoring and strict growth -/

/-- The power-law median is positive on positive day counts and
positive FX rates. -/
theorem get_power_law_price_pos (days fx : ℝ) (hd : 0 < days) (hfx : 0 < fx) :
    0 < get_power_law_price days fx := by
  unfold get_power_law_price
  have h1 : (0 : ℝ) < (10 : ℝ) ^ (-17 : ℤ) := by positivity
  have h2 : (0 : ℝ) < days ^ (5.82 : ℝ) := Real.rpow_pos_of_pos hd _
  exact div_pos (mul_pos h1 h2) hfx

/-- C6.  Anchored power-law mode (page 3 lines 59-74): with a positive
day count for the anchoring date and a positive starting price, the
projected price at year 0 equals the starting price exactly (by
construction of `anchor_ratio`), the anchor ratio is positive, and the
projected price is strictly increasing in the year index. -/
theorem anchored_price_anchors_and_grows (P : ℝ) (d : ℕ) (hd : 0 < d)
    (hP : 0 < P) :
    anchoredPriceAt P d 0 = P ∧
    0 < anchor_ratio P d ∧
    StrictMono (anchoredPriceAt P d) := by
  have hdr : (0 : ℝ) < (d : ℝ) := by exact_mod_cast hd
  have hgp : 0 < get_power_law_price (d : ℝ) 0.65 :=
    get_power_law_price_pos _ _ hdr (by norm_num)
  have hA : 0 < anchor_ratio P d := by
    unfold anchor_ratio
    exact div_pos hP hgp
  refine ⟨?_, hA, ?_⟩
  · unfold anchoredPriceAt anchor_ratio
    rw [show d + 0 * 365 = d by omega]
    field_simp
  · apply strictMono_nat_of_lt_succ
    intro n
    unfold anchoredPriceAt
    have hcast : ((d + n * 365 : ℕ) : ℝ) < ((d + (n + 1) * 365 : ℕ) : ℝ) := by
      exact_mod_cast (by omega : d + n * 365 < d + (n + 1) * 365)
    have hnn : (0 : ℝ) ≤ ((d + n * 365 : ℕ) : ℝ) := Nat.cast_nonneg _
    unfold get_power_law_price
    have hstep : ((d + n * 365 : ℕ) : ℝ) ^ (5.82 : ℝ) <
        ((d + (n + 1) * 365 : ℕ) : ℝ) ^ (5.82 : ℝ) :=
      Real.rpow_lt_rpow hnn hcast (by norm_num)
    gcongr

/-- Witness for C6 at `startPrice = 150000`, `daysToday = 6000`. -/
theorem anchored_price_anchors_and_grows_witness :
    anchoredPriceAt 150000 6000 0 = 150000 ∧
    0 < anchor_ratio 150000 6000 ∧
    StrictMono (anchoredPriceAt 150000 6000) :=
  anchored_price_anchors_and_grows 150000 6000 (by norm_num) (by norm_num)

/-! ### C3: tax_rate ≥ 1 silently falls back -/

/-- C3 (amended).  When `tax_rate ≥ 1` the drawdown run is not
rejected: the source's conditional expression (page 2 line 151)
silently replaces the gross-up by the net amount itself, every row
records zero tax paid, and a full ledger of `horizon + 1` rows is
still produced. -/
theorem tax_ge_one_falls_back (cfg : LegacyConfig α) (h : 1 ≤ cfg.taxRate)
    (horizon : ℕ) :
    (legacyLedger cfg horizon).length = horizon + 1 ∧
    (∀ y, (gross_up (legacyTotalNet cfg y) cfg.taxRate).1 = legacyTotalNet cfg y) ∧
    (∀ y, (legacyRow cfg y).taxPaid = 0) := by
  have hns : ¬ cfg.taxRate < 1 := not_lt.mpr h
  refine ⟨by simp [legacyLedger], ?_, ?_⟩
  · intro y
    unfold gross_up
    dsimp only
    rw [if_neg hns]
  · intro y
    cases y with
    | zero => rfl
    | succ k =>
      show (gross_up (legacyTotalNet cfg (k + 1)) cfg.taxRate).2 = 0
      unfold gross_up
      dsimp only
      rw [if_neg hns]
      exact sub_self _

/-- A concrete drawdown configuration with `tax_rate = 1` and a
nonzero yearly net need of 20000 (constant price 100000). -/
def legacyCfgTax1 : LegacyConfig ℚ :=
  ⟨100000, 1, 20000, 0, 50, 0, 0, 1, 25, [], GrowthEngine.manual [(1, 0)]⟩

/-- Witness for C3 (amended) on `legacyCfgTax1` with horizon 10. -/
theorem tax_ge_one_falls_back_witness :
    (legacyLedger legacyCfgTax1 10).length = 10 + 1 ∧
    (∀ y, (gross_up (legacyTotalNet legacyCfgTax1 y) legacyCfgTax1.taxRate).1 =
      legacyTotalNet legacyCfgTax1 y) ∧
    (∀ y, (legacyRow legacyCfgTax1 y).taxPaid = 0) :=
  tax_ge_one_falls_back legacyCfgTax1 (by norm_num [legacyCfgTax1]) 10

/-- Counterexample to C3 as stated: on `legacyCfgTax1` (tax rate 1,
net need 20000 in year 1) no configuration error occurs — the ledger
is produced in full, the tax paid is 0 (the gross sale silently fell
back to the net amount), and the year-1 sale of `20000 / 100000` units
went through. -/
theorem tax_ge_one_not_rejected :
    legacyCfgTax1.taxRate = 1 ∧
    legacyTotalNet legacyCfgTax1 1 = 20000 ∧
    (legacyLedger legacyCfgTax1 1).length = 2 ∧
    (legacyRow legacyCfgTax1 1).taxPaid = 0 ∧
    (legacyRow legacyCfgTax1 1).btc = 1 - 20000 / 100000 := by
  refine ⟨rfl, ?_, by simp [legacyLedger], ?_, ?_⟩
  · norm_num [legacyTotalNet, legacyCostParents, legacyCostKids, legacyCostLump,
      eventsAmount, legacyCfgTax1]
  · norm_num [legacyRow, legacyStep, gross_up, legacyTotalNet, legacyCostParents,
      legacyCostKids, legacyCostLump, eventsAmount, legacyCfgTax1]
  · norm_num [legacyRow, legacyStep, legacyStates, legacyInit, legacyNewBtc,
      legacyBtcAfter, legacyBtcSold, legacyPrice, rateLookup, gross_up,
      legacyTotalNet, legacyCostParents, legacyCostKids, legacyCostLump,
      eventsAmount, legacyCfgTax1]

/-! ### C1: witness and counterexample -/

/-- A well-behaved concrete drawdown configuration: positive prices
(growth rates 60% and −30%, fallback 5%), non-negative costs, a
lump-sum event in year 4. -/
def legacyCfgPos : LegacyConfig ℚ :=
  ⟨100, 1, 10, 2, 3, 5, 3/100, 1/5, 25, [(4, 50)],
    GrowthEngine.manual [(1, 60), (2, -30)]⟩

/-- Witness for C1 (amended) on `legacyCfgPos`. -/
theorem drawdown_failed_absorbing_witness :
    (∀ y, 0 ≤ (legacyRow legacyCfgPos y).btc) ∧
    (∀ i j, i ≤ j → (legacyRow legacyCfgPos i).status = Status.Failed →
      (legacyRow legacyCfgPos j).status = Status.Failed ∧
      (legacyRow legacyCfgPos j).btc = 0) := by
  apply drawdown_failed_absorbing legacyCfgPos
  · norm_num [legacyCfgPos]
  · refine ⟨by norm_num [legacyCfgPos], ?_⟩
    show ∀ e ∈ [((1 : ℕ), (60 : ℚ)), (2, -30)], 0 < 1 + e.2 / 100
    intro e he
    fin_cases he <;> norm_num
  · refine ⟨by norm_num [legacyCfgPos], by norm_num [legacyCfgPos],
      by norm_num [legacyCfgPos], by norm_num [legacyCfgPos], ?_⟩
    show ∀ e ∈ [((4 : ℕ), (50 : ℚ))], 0 ≤ e.2
    intro e he
    fin_cases he
    norm_num

/-- A degenerate configuration that revives holdings after failure:
no holdings, a net need of 1, and a −300% manual growth rate in year 2
that drives the modeled price negative. -/
def legacyCfgNegPrice : LegacyConfig ℚ :=
  ⟨1, 0, 1, 0, 50, 0, 0, 0, 0, [], GrowthEngine.manual [(1, 0), (2, -300)]⟩

/-- Counterexample to C1 as stated ("for every configuration"): on
`legacyCfgNegPrice` the run fails in year 1, yet the year-2 row —
whose modeled price is negative because of the −300% growth rate —
records status Failed with holdings 1/2, not 0: selling a negative
quantity at a negative price *adds* holdings after failure. -/
theorem legacy_failed_row_positive_btc :
    (legacyRow legacyCfgNegPrice 1).status = Status.Failed ∧
    (legacyRow legacyCfgNegPrice 2).status = Status.Failed ∧
    (legacyRow legacyCfgNegPrice 2).btc = 1/2 ∧
    ¬ (legacyRow legacyCfgNegPrice 2).btc = 0 := by
  norm_num [legacyRow, legacyStep, legacyStates, legacyInit, legacyNewBtc,
    legacyNewStatus, legacyBtcAfter, legacyBtcSold, legacyPrice, rateLookup,
    gross_up, legacyTotalNet, legacyCostParents, legacyCostKids, legacyCostLump,
    eventsAmount, legacyCfgNegPrice]

/-! ### C2: the exact-depletion scenario -/

/-- The spec's concrete scenario: price 100000 held constant (manual
cycle, 0% growth in years 1-10), 1 BTC, no tax, no inflation, constant
net need 20000 per year. -/
def legacyCfgDeplete : LegacyConfig ℚ :=
  ⟨100000, 1, 20000, 0, 50, 0, 0, 0, 25, [],
    GrowthEngine.manual [(1, 0), (2, 0), (3, 0), (4, 0), (5, 0), (6, 0),
      (7, 0), (8, 0), (9, 0), (10, 0)]⟩

/-- Counterexample to C2 as stated: in the exact-depletion scenario
the year-5 row has holdings exactly 0 but status Sustainable, not
Failed — the clamp of page 2 line 155 fires only on strictly negative
holdings, so failure is recorded in year 6. -/
theorem deplete_year5_sustainable :
    (legacyRow legacyCfgDeplete 5).btc = 0 ∧
    (legacyRow legacyCfgDeplete 5).status = Status.Sustainable ∧
    ¬ (legacyRow legacyCfgDeplete 5).status = Status.Failed := by
  norm_num [legacyRow, legacyStep, legacyStates, legacyInit, legacyNewBtc,
    legacyNewStatus, legacyBtcAfter, legacyBtcSold, legacyPrice, rateLookup,
    gross_up, legacyTotalNet, legacyCostParents, legacyCostKids, legacyCostLump,
    eventsAmount, legacyCfgDeplete]
  all_goals decide

/-- C2 (amended).  In the exact-depletion scenario holdings decrease
by exactly 1/5 = 0.2 units per year, reaching exactly 0 in year 5 with
status still Sustainable; the status first becomes Failed in year 6
(and stays Failed with zero holdings through year 10). -/
theorem deplete_schedule :
    (legacyRow legacyCfgDeplete 0).btc = 1 ∧
    (legacyRow legacyCfgDeplete 1).btc = 4/5 ∧
    (legacyRow legacyCfgDeplete 2).btc = 3/5 ∧
    (legacyRow legacyCfgDeplete 3).btc = 2/5 ∧
    (legacyRow legacyCfgDeplete 4).btc = 1/5 ∧
    (legacyRow legacyCfgDeplete 5).btc = 0 ∧
    (legacyRow legacyCfgDeplete 0).status = Status.Sustainable ∧
    (legacyRow legacyCfgDeplete 1).status = Status.Sustainable ∧
    (legacyRow legacyCfgDeplete 2).status = Status.Sustainable ∧
    (legacyRow legacyCfgDeplete 3).status = Status.Sustainable ∧
    (legacyRow legacyCfgDeplete 4).status = Status.Sustainable ∧
    (legacyRow legacyCfgDeplete 5).status = Status.Sustainable ∧
    (legacyRow legacyCfgDeplete 6).status = Status.Failed ∧
    (legacyRow legacyCfgDeplete 6).btc = 0 ∧
    (legacyRow legacyCfgDeplete 7).status = Status.Failed ∧
    (legacyRow legacyCfgDeplete 7).btc = 0 ∧
    (legacyRow legacyCfgDeplete 8).status = Status.Failed ∧
    (legacyRow legacyCfgDeplete 8).btc = 0 ∧
    (legacyRow legacyCfgDeplete 9).status = Status.Failed ∧
    (legacyRow legacyCfgDeplete 9).btc = 0 ∧
    (legacyRow legacyCfgDeplete 10).status = Status.Failed ∧
    (legacyRow legacyCfgDeplete 10).btc = 0 := by
  norm_num [legacyRow, legacyRow0, legacyStep, legacyStates, legacyInit, legacyNewBtc,
    legacyNewStatus, legacyBtcAfter, legacyBtcSold, legacyPrice, rateLookup,
    gross_up, legacyTotalNet, legacyCostParents, legacyCostKids, legacyCostLump,
    eventsAmount, legacyCfgDeplete]

end FinancialPlanner
